import Mathlib

/-!
# NectarNook backend — verification of the catalog and auth services

Shallow embedding of the `nectarnook-backend` repository (FastAPI + SQLAlchemy):

* `src/app/models.py`   — the `Product` and `User` rows (tables `products`, `users`);
* `src/schemas/schemas.py` — the request/response schemas;
* `src/app/main.py`    — the HTTP handlers (catalog CRUD, registration, login);
* `src/app/security.py` — password hashing and JWT issuing/verification.

The database is embedded as a list of rows plus the autoincrement counter.
Each handler is a pure function from the store (and request data) to an
`Except HTTPException` result, mirroring the `raise HTTPException(...)` /
`return ...` structure of the Python handlers.  The external password-hashing
library (passlib/bcrypt) is a parameter `hashFn`/`verifyFn` with its
documented contract carried as hypotheses; the JWT wire format is a signed
claims structure.
-/

namespace NectarNook

/-- `fastapi.HTTPException(status_code, detail)` as raised by the handlers. -/
structure HTTPException where
  status_code : Nat
  detail : String
deriving Repr, DecidableEq

/-! ## Product data model (`src/app/models.py`, table `products`) -/

/-- A row of the `products` table: integer autoincrement primary key,
`name`, `description`, `price`, `in_stock`, and the nullable `image_url`
column.  `price` is a SQL float; the service never computes with it, only
stores and returns it, so it is embedded as an exact rational. -/
structure Product where
  id : Nat
  name : String
  description : String
  price : Rat
  in_stock : Bool
  image_url : Option String
deriving Repr, DecidableEq

/-- The `products` table together with the autoincrement state. -/
structure ProductStore where
  rows : List Product
  nextId : Nat
deriving Repr, DecidableEq

/-- Every stored id is below the autoincrement counter, so a freshly
assigned id never collides with an existing row. -/
def ProductStore.fresh (s : ProductStore) : Prop :=
  ∀ p ∈ s.rows, p.id < s.nextId

/-! ## Product schemas (`src/schemas/schemas.py`)

`schemas.py` defines `ProductSchema` twice; the second definition
(`class ProductSchema(ProductCreateSchema): id: int`) shadows the first, so
the response model in effect has exactly the fields
`name, description, price, in_stock, id` — no `image_url`. -/

/-- `ProductCreateSchema`: the only fields a create request accepts. -/
structure ProductCreateSchema where
  name : String
  description : String
  price : Rat
  in_stock : Bool
deriving Repr, DecidableEq

/-- The effective `ProductSchema` response model: `ProductCreateSchema`
plus the assigned `id`.  It has no `image_url` field. -/
structure ProductSchema where
  id : Nat
  name : String
  description : String
  price : Rat
  in_stock : Bool
deriving Repr, DecidableEq

/-- Serialize an ORM `Product` row through the response model
(`response_model=ProductSchema` / `ProductSchema.from_orm`): the
`image_url` attribute is dropped because the schema has no such field. -/
def ProductSchema.fromProduct (p : Product) : ProductSchema :=
  { id := p.id, name := p.name, description := p.description
    price := p.price, in_stock := p.in_stock }

/-- `ProductUpdateSchema`: every field optional; a `some` field is a key
present in `product_data.model_dump(exclude_unset=True)`. -/
structure ProductUpdateSchema where
  name : Option String := none
  description : Option String := none
  price : Option Rat := none
  in_stock : Option Bool := none
  image_url : Option String := none
deriving Repr, DecidableEq

/-! ## Catalog handlers (`src/app/main.py`) -/

/-- `session.execute(select(Product).where(Product.id == product_id))`
followed by `.scalars().first()`. -/
def findProduct (rows : List Product) (product_id : Nat) : Option Product :=
  rows.find? (fun p => p.id == product_id)

/-- `GET /products/{product_id}` (`read_product`): return the row, or raise
404 "Product not found" when no row matches. -/
def read_product (store : ProductStore) (product_id : Nat) :
    Except HTTPException ProductSchema :=
  match findProduct store.rows product_id with
  | none => .error ⟨404, "Product not found"⟩
  | some product => .ok (ProductSchema.fromProduct product)

/-- `POST /products/` (`create_product`): build
`Product(**product_data.model_dump())` — the unset `image_url` column stays
NULL — insert it, and return the refreshed row.  Returns the new store, the
stored row and the serialized 201 response body. -/
def create_product (store : ProductStore) (product_data : ProductCreateSchema) :
    ProductStore × Product × ProductSchema :=
  let product : Product :=
    { id := store.nextId, name := product_data.name
      description := product_data.description, price := product_data.price
      in_stock := product_data.in_stock, image_url := none }
  ({ rows := store.rows ++ [product], nextId := store.nextId + 1 },
   product, ProductSchema.fromProduct product)

/-- The `for key, value in update_data.items(): setattr(product, key, value)`
loop of `update_product`: each key present in the dump overwrites the
attribute, absent keys leave the prior value. -/
def applyUpdate (u : ProductUpdateSchema) (p : Product) : Product :=
  { p with
    name := u.name.getD p.name
    description := u.description.getD p.description
    price := u.price.getD p.price
    in_stock := u.in_stock.getD p.in_stock
    image_url := match u.image_url with | some v => some v | none => p.image_url }

/-- Mutating the object found by `scalars().first()` in place and committing:
the first row matching the id is replaced, every other row untouched. -/
def setFirst : List Product → Nat → Product → List Product
  | [], _, _ => []
  | q :: qs, product_id, p' =>
    if q.id == product_id then p' :: qs else q :: setFirst qs product_id p'

/-- `PUT /products/{product_id}` (`update_product`): 404 when absent,
otherwise apply exactly the set keys to the found row, commit, and return
the refreshed row. -/
def update_product (store : ProductStore) (product_id : Nat)
    (product_data : ProductUpdateSchema) :
    Except HTTPException (ProductStore × ProductSchema) :=
  match findProduct store.rows product_id with
  | none => .error ⟨404, "Product not found"⟩
  | some product =>
    let product' := applyUpdate product_data product
    .ok ({ store with rows := setFirst store.rows product_id product' },
         ProductSchema.fromProduct product')

/-- `session.delete` of the object found by primary key: the row with that
id is removed. -/
def removeFirst : List Product → Nat → List Product
  | [], _ => []
  | q :: qs, product_id =>
    if q.id == product_id then qs else q :: removeFirst qs product_id

/-- `DELETE /products/{product_id}` (`delete_product`): 404 when absent,
otherwise delete the row and return the confirmation message. -/
def delete_product (store : ProductStore) (product_id : Nat) :
    Except HTTPException (ProductStore × String) :=
  match findProduct store.rows product_id with
  | none => .error ⟨404, "Product not found"⟩
  | some _ =>
    .ok ({ store with rows := removeFirst store.rows product_id },
         "Product deleted successfully")

/-- The faults `read_products` catches: `SQLAlchemyError` (the store
failure) and any other exception, each carrying its internal message. -/
inductive StoreFault where
  | sqlAlchemyError (msg : String)
  | otherError (msg : String)
deriving Repr, DecidableEq

/-- `GET /products/` (`read_products`): on success the serialized list; a
`SQLAlchemyError` is caught, logged, and mapped to a fixed 500 detail; any
other exception is caught and mapped to another fixed 500 detail.  Neither
detail contains the internal message. -/
def read_products (store : ProductStore) (fault : Option StoreFault) :
    Except HTTPException (List ProductSchema) :=
  match fault with
  | some (.sqlAlchemyError _) =>
    .error ⟨500, "Internal Server Error: Database operation failed."⟩
  | some (.otherError _) =>
    .error ⟨500, "Internal Server Error: Unable to process request."⟩
  | none => .ok (store.rows.map ProductSchema.fromProduct)

/-! ## User data model (`src/app/models.py`, table `users`) -/

/-- A row of the `users` table: integer autoincrement primary key, unique
`username`, `hashed_password`, `is_admin` (default false). -/
structure User where
  id : Nat
  username : String
  hashed_password : String
  is_admin : Bool
deriving Repr, DecidableEq

/-- The `users` table together with the autoincrement state. -/
structure UserStore where
  users : List User
  nextId : Nat
deriving Repr, DecidableEq

/-- `UserSchema`, the registration response model: `id`, `username`,
`is_admin` — no password-hash field. -/
structure UserSchema where
  id : Nat
  username : String
  is_admin : Bool
deriving Repr, DecidableEq

/-- Serialize a `User` row through `response_model=UserSchema`: the
`hashed_password` attribute is dropped because the schema has no such
field. -/
def UserSchema.fromUser (u : User) : UserSchema :=
  { id := u.id, username := u.username, is_admin := u.is_admin }

/-- `session.execute(select(User).filter(User.username == username))`
followed by `.scalars().first()`. -/
def findUser (users : List User) (username : String) : Option User :=
  users.find? (fun u => u.username == username)

/-- `POST /auth/users/` (`create_user`): 400 "User already exists" when the
username is taken; otherwise store
`User(username=..., hashed_password=security.get_password_hash(password),
is_admin=False)` and return the new user through `UserSchema`.
`hashFn` is passlib's `pwd_context.hash` (bcrypt), an external library
modelled as a parameter. -/
def create_user (hashFn : String → String) (store : UserStore)
    (username password : String) :
    Except HTTPException (UserStore × UserSchema) :=
  match findUser store.users username with
  | some _ => .error ⟨400, "User already exists"⟩
  | none =>
    let new_user : User :=
      { id := store.nextId, username := username
        hashed_password := hashFn password, is_admin := false }
    .ok ({ users := store.users ++ [new_user], nextId := store.nextId + 1 },
         UserSchema.fromUser new_user)

/-- One registration request against the store: a failed `create_user`
leaves the store unchanged (the transaction in `session.begin()` rolls
back). -/
def registerStep (hashFn : String → String) (store : UserStore)
    (req : String × String) : UserStore :=
  match create_user hashFn store req.1 req.2 with
  | .ok (store', _) => store'
  | .error _ => store

/-- A sequence of registration requests. -/
def registerAll (hashFn : String → String) (store : UserStore)
    (reqs : List (String × String)) : UserStore :=
  reqs.foldl (registerStep hashFn) store

/-- Username uniqueness: no two stored users share a username. -/
def uniqueUsernames (store : UserStore) : Prop :=
  (store.users.map User.username).Nodup

/-! ## Security (`src/app/security.py`) -/

/-- `SECRET_KEY` from `security.py`. -/
def SECRET_KEY : String :=
  "cefe4076517ea84df010b847d47fef876ab9d7cb25fd1bf786db5da41745b252"

/-- `ACCESS_TOKEN_EXPIRE_MINUTES = 30`. -/
def ACCESS_TOKEN_EXPIRE_MINUTES : Nat := 30

/-- The claim set a token carries: the optional `"sub"` claim and the
`"exp"` timestamp (seconds since epoch). -/
structure Claims where
  sub : Option String
  exp : Nat
deriving Repr, DecidableEq

/-- `jwt.encode`'s HS256 signature over the payload: an external primitive,
embedded as a function of the secret and the claims (what HMAC is a
collision-resistant stand-in for). -/
def signClaims (secret : String) (c : Claims) : String :=
  secret ++ "|" ++ toString c.exp ++ "|" ++ (c.sub.getD "")

/-- A structurally well-formed JWT: payload plus signature. -/
structure Jwt where
  claims : Claims
  sig : String
deriving Repr, DecidableEq

/-- What a caller may hand to `verify_token`: a parseable JWT, or any other
byte string (which `jwt.decode` rejects with `JWTError`). -/
inductive TokenWire where
  | jwt (t : Jwt)
  | garbage (s : String)
deriving Repr, DecidableEq

/-- `create_access_token(data={"sub": sub}, expires_delta=...)`:
the expiry is `utcnow() + expires_delta`, or `utcnow() + 15 minutes` when no
delta is given; the claims are signed with `SECRET_KEY`.  Time is in
seconds, `expires_delta` the delta in seconds. -/
def create_access_token (now : Nat) (sub : String)
    (expires_delta : Option Nat) : Jwt :=
  let expire : Nat :=
    match expires_delta with
    | some delta => now + delta
    | none => now + 15 * 60
  { claims := { sub := some sub, exp := expire }
    sig := signClaims SECRET_KEY { sub := some sub, exp := expire } }

/-- `jwt.decode(token, SECRET_KEY, algorithms=[ALGORITHM])` at time `now`:
`JWTError` on an unparseable token, a bad signature, or an expired `exp`
claim; otherwise the payload. -/
def jwt_decode (secret : String) (now : Nat) :
    TokenWire → Option Claims
  | .garbage _ => none
  | .jwt t =>
    if t.sig ≠ signClaims secret t.claims then none
    else if t.claims.exp < now then none
    else some t.claims

/-- `verify_token(token, credentials_exception)`: decode (signature and
expiry checked there); raise the given exception on `JWTError` or when the
payload has no `"sub"` claim; otherwise return the subject. -/
def verify_token (credentials_exception : HTTPException) (now : Nat)
    (token : TokenWire) : Except HTTPException String :=
  match jwt_decode SECRET_KEY now token with
  | none => .error credentials_exception
  | some payload =>
    match payload.sub with
    | none => .error credentials_exception
    | some username => .ok username

/-- `authenticate_user(username, password, db)`: look the user up by
username; return it only when found and
`security.verify_password(password, db_user.hashed_password)` holds.
`verifyFn` is passlib's `pwd_context.verify` (bcrypt), an external library
modelled as a parameter. -/
def authenticate_user (verifyFn : String → String → Bool)
    (store : UserStore) (username password : String) : Option User :=
  match findUser store.users username with
  | none => none
  | some db_user =>
    if verifyFn password db_user.hashed_password then some db_user else none

/-- The `/auth/token` response body `{access_token, token_type}`. -/
structure TokenResponse where
  access_token : Jwt
  token_type : String
deriving Repr, DecidableEq

/-- `POST /auth/token` (`login_for_access_token`): 401 "Incorrect username
or password" unless `authenticate_user` succeeds; on success issue a token
for the stored user's username expiring
`timedelta(minutes=ACCESS_TOKEN_EXPIRE_MINUTES)` from now, with token type
"bearer". -/
def login_for_access_token (verifyFn : String → String → Bool) (now : Nat)
    (store : UserStore) (username password : String) :
    Except HTTPException TokenResponse :=
  match authenticate_user verifyFn store username password with
  | none => .error ⟨401, "Incorrect username or password"⟩
  | some user =>
    .ok { access_token :=
            create_access_token now user.username
              (some (ACCESS_TOKEN_EXPIRE_MINUTES * 60))
          token_type := "bearer" }

/-! ## Session provider (`get_db` in `src/app/main.py` and `src/main.py`)

`get_db` wraps the whole request body in
`async with AsyncSessionLocal() as session: yield session`.  Per the
context-manager protocol this desugars to `session = enter(); try: body
finally: exit(session)`, so the session is released whether the body
returns or raises.  The embedding records acquire/release events and lets
the body either return a value or raise. -/

/-- A session lifecycle event. -/
inductive Event where
  | acquire
  | release
deriving Repr, DecidableEq, BEq

/-- A Python body either returns a value or raises an exception. -/
inductive PyResult (α : Type) where
  | ret (a : α)
  | raised (e : String)
deriving Repr, DecidableEq

/-- `async with enter() as s: body` desugared per the context-manager
protocol: run `enter`, run the body, and run `exitFn` in a `finally`
block — on the return path and on the raise path alike. -/
def asyncWith {α : Type} (enter : Unit → Nat × List Event)
    (exitFn : Nat → List Event)
    (body : Nat → PyResult α × List Event) : PyResult α × List Event :=
  let (s, enterEvents) := enter ()
  let (r, bodyEvents) := body s
  match r with
  | .ret a => (.ret a, enterEvents ++ bodyEvents ++ exitFn s)
  | .raised e => (.raised e, enterEvents ++ bodyEvents ++ exitFn s)

/-- `AsyncSessionLocal()` entered: a new session handle is acquired. -/
def sessionEnter : Unit → Nat × List Event := fun _ => (0, [Event.acquire])

/-- `AsyncSession.__aexit__`: the session is closed (rolling back any open
transaction). -/
def sessionExit : Nat → List Event := fun _ => [Event.release]

/-- `get_db`: yield a fresh session to the request body inside
`async with AsyncSessionLocal() as session`. -/
def get_db {α : Type} (body : Nat → PyResult α × List Event) :
    PyResult α × List Event :=
  asyncWith sessionEnter sessionExit body

/-- Modelled from the spec: the HTTP framework's outcome translation for
handlers without a try/except of their own (the framework code is not part
of this repository) — "NotFound/AlreadyExists/InvalidCredentials map to
specific 4xx codes with a human-readable detail message; StoreError and
any unclassified failure map to a generic 500 with a non-leaking message
(no internal stack/detail echoed to caller)".  An `HTTPException` becomes
its status and detail; an uncaught exception becomes a fixed generic 500
body that does not mention the exception. -/
def frameworkRespond {α : Type} (render : α → String) :
    PyResult (Except HTTPException α) → Nat × String
  | .raised _ => (500, "Internal Server Error")
  | .ret (.error e) => (e.status_code, e.detail)
  | .ret (.ok a) => (200, render a)

/-! ## Concrete fixtures (used to instantiate the theorems) -/

/-- A concrete catalog row. -/
def demoP1 : Product :=
  { id := 1, name := "Acacia Honey", description := "Light floral honey"
    price := (1099 : Rat) / 100, in_stock := true, image_url := none }

/-- A second concrete catalog row. -/
def demoP2 : Product :=
  { id := 2, name := "Beeswax Candle", description := "Hand rolled"
    price := (750 : Rat) / 100, in_stock := false, image_url := some "img/candle.png" }

/-- A concrete catalog store holding `demoP1` and `demoP2`. -/
def demoStore : ProductStore := { rows := [demoP1, demoP2], nextId := 3 }

/-- A concrete partial update touching only `name` and `price`. -/
def demoUpdate : ProductUpdateSchema :=
  { name := some "Wildflower Honey", price := some ((1250 : Rat) / 100) }

/-- The example create request of the spec scenario. -/
def demoCreate : ProductCreateSchema :=
  { name := "Test", description := "D", price := (1099 : Rat) / 100, in_stock := true }

/-- A concrete user store holding one registered user. -/
def demoUserStore : UserStore :=
  { users := [{ id := 1, username := "a@b.c", hashed_password := "#hunter2"
                is_admin := false }], nextId := 2 }

/-- Witness hash function standing in for bcrypt: prepends a marker, so the
output is never the input and collisions are impossible. -/
def demoHash (password : String) : String := "#" ++ password

/-- Witness verifier matching `demoHash`. -/
def demoVerify (password hashed : String) : Bool := ("#" ++ password) == hashed

/-! ## Helper lemmas -/

/-- A successful `find?` splits the list at the found element, everything
before it failing the predicate. -/
lemma find?_eq_some_split {α : Type} (f : α → Bool) :
    ∀ (l : List α) (a : α), l.find? f = some a →
      ∃ l₁ l₂, l = l₁ ++ a :: l₂ ∧ ∀ x ∈ l₁, f x = false := by
  intro l
  induction l with
  | nil => intro a h; simp [List.find?] at h
  | cons x xs ih =>
    intro a h
    by_cases hx : f x
    · rw [List.find?_cons_of_pos _ hx] at h
      obtain rfl : x = a := by injection h
      exact ⟨[], xs, rfl, by simp⟩
    · rw [List.find?_cons_of_neg _ (by simpa using hx)] at h
      obtain ⟨l₁, l₂, rfl, hl₁⟩ := ih a h
      refine ⟨x :: l₁, l₂, rfl, ?_⟩
      intro y hy
      rcases List.mem_cons.mp hy with rfl | hy
      · simpa using hx
      · exact hl₁ y hy

lemma applyUpdate_keeps_id (u : ProductUpdateSchema) (p : Product) :
    (applyUpdate u p).id = p.id := rfl

/-- `setFirst` replaces exactly the first row with the given id. -/
lemma setFirst_split (l₁ : List Product) (p : Product) (l₂ : List Product)
    (product_id : Nat) (p' : Product)
    (hl₁ : ∀ q ∈ l₁, (q.id == product_id) = false) (hp : p.id = product_id) :
    setFirst (l₁ ++ p :: l₂) product_id p' = l₁ ++ p' :: l₂ := by
  induction l₁ with
  | nil => simp [setFirst, hp]
  | cons q qs ih =>
    have hq : (q.id == product_id) = false := hl₁ q (List.mem_cons_self q qs)
    simp only [List.cons_append, setFirst, hq]
    simp only [Bool.false_eq_true, if_false, List.cons.injEq, true_and]
    exact ih fun r hr => hl₁ r (List.mem_cons_of_mem q hr)

/-- `removeFirst` removes exactly the first row with the given id. -/
lemma removeFirst_split (l₁ : List Product) (p : Product) (l₂ : List Product)
    (product_id : Nat)
    (hl₁ : ∀ q ∈ l₁, (q.id == product_id) = false) (hp : p.id = product_id) :
    removeFirst (l₁ ++ p :: l₂) product_id = l₁ ++ l₂ := by
  induction l₁ with
  | nil => simp [removeFirst, hp]
  | cons q qs ih =>
    have hq : (q.id == product_id) = false := hl₁ q (List.mem_cons_self q qs)
    simp only [List.cons_append, removeFirst, hq]
    simp only [Bool.false_eq_true, if_false, List.cons.injEq, true_and]
    exact ih fun r hr => hl₁ r (List.mem_cons_of_mem q hr)

/-- `find?` over a prefix that wholly fails the predicate skips it. -/
lemma find?_append_left_none {α : Type} (f : α → Bool) (l₁ l₂ : List α)
    (h : ∀ x ∈ l₁, f x = false) :
    (l₁ ++ l₂).find? f = l₂.find? f := by
  rw [List.find?_append]
  have : l₁.find? f = none := List.find?_eq_none.mpr (by simpa using h)
  simp [this]

/-- The witness hash is never the identity: it strictly lengthens its
input. -/
lemma demoHash_one_way (pw : String) : demoHash pw ≠ pw := by
  intro h
  have hlen := congrArg String.length h
  rw [demoHash, String.length_append] at hlen
  have h1 : ("#" : String).length = 1 := rfl
  omega

/-- The witness verifier accepts the matching password. -/
lemma demoVerify_ok (pw : String) : demoVerify pw (demoHash pw) = true := by
  simp [demoVerify, demoHash]

/-- The witness verifier accepts only the matching password. -/
lemma demoVerify_sound (pw pw' : String)
    (h : demoVerify pw' (demoHash pw) = true) : pw' = pw := by
  simp only [demoVerify, demoHash, beq_iff_eq] at h
  have hd := congrArg String.data h
  simp only [String.data_append] at hd
  exact String.ext (by simpa using hd)

/-- A single registration request preserves username uniqueness. -/
lemma registerStep_unique (hashFn : String → String) (store : UserStore)
    (req : String × String) (h : uniqueUsernames store) :
    uniqueUsernames (registerStep hashFn store req) := by
  unfold registerStep
  cases hfind : findUser store.users req.1 with
  | some u => simpa [create_user, hfind] using h
  | none =>
    simp only [create_user, hfind]
    unfold uniqueUsernames at h ⊢
    simp only [List.map_append, List.map_cons, List.map_nil]
    rw [List.nodup_append]
    refine ⟨h, List.nodup_singleton _, ?_⟩
    intro a ha hamem
    have heq : a = req.1 := List.mem_singleton.mp hamem
    obtain ⟨u, hu, hname⟩ := List.mem_map.mp ha
    have hfind' : List.find? (fun v => v.username == req.1) store.users = none := hfind
    have := List.find?_eq_none.mp hfind' u hu
    simp [hname, heq] at this

/-! ## Claims -/

/-- C1: for every product id present in the store and every partial field
set, `update(id, partialFields)` applies exactly the keys present in
`partialFields` to that product, leaves every other field of that product
(and every other row of the store) with its prior value, and returns the
updated row; for every id absent it fails with 404 NotFound. -/
theorem C1_update_partial_frame (store : ProductStore) (product_id : Nat)
    (u : ProductUpdateSchema) :
    (findProduct store.rows product_id = none →
       update_product store product_id u = .error ⟨404, "Product not found"⟩) ∧
    (∀ p, findProduct store.rows product_id = some p →
       ((applyUpdate u p).id = p.id ∧
        (applyUpdate u p).name = (match u.name with | some v => v | none => p.name) ∧
        (applyUpdate u p).description =
          (match u.description with | some v => v | none => p.description) ∧
        (applyUpdate u p).price = (match u.price with | some v => v | none => p.price) ∧
        (applyUpdate u p).in_stock =
          (match u.in_stock with | some v => v | none => p.in_stock) ∧
        (applyUpdate u p).image_url =
          (match u.image_url with | some v => v | none => p.image_url)) ∧
       ∃ l₁ l₂, store.rows = l₁ ++ p :: l₂ ∧
         update_product store product_id u =
           .ok ({ rows := l₁ ++ applyUpdate u p :: l₂, nextId := store.nextId },
                ProductSchema.fromProduct (applyUpdate u p))) := by
  constructor
  · intro h
    simp [update_product, h]
  · intro p hp
    have hp' : List.find? (fun q => q.id == product_id) store.rows = some p := hp
    refine ⟨⟨rfl, ?_, ?_, ?_, ?_, ?_⟩, ?_⟩
    · simp only [applyUpdate]; cases u.name <;> rfl
    · simp only [applyUpdate]; cases u.description <;> rfl
    · simp only [applyUpdate]; cases u.price <;> rfl
    · simp only [applyUpdate]; cases u.in_stock <;> rfl
    · simp only [applyUpdate]
    · obtain ⟨l₁, l₂, hrows, hl₁⟩ :=
        find?_eq_some_split (fun q => q.id == product_id) store.rows p hp'
      have hpid : p.id = product_id := by
        have h2 := List.find?_some hp'
        simpa using h2
      refine ⟨l₁, l₂, hrows, ?_⟩
      simp only [update_product, hp]
      have hset : setFirst store.rows product_id (applyUpdate u p) =
          l₁ ++ applyUpdate u p :: l₂ := by
        rw [hrows]; exact setFirst_split l₁ p l₂ product_id (applyUpdate u p) hl₁ hpid
      rw [hset]

/-- C1 witness: updating product 1 of the demo store with a partial field
set touching only name and price. -/
theorem C1_update_partial_frame_witness :
    ((applyUpdate demoUpdate demoP1).id = demoP1.id ∧
     (applyUpdate demoUpdate demoP1).name =
       (match demoUpdate.name with | some v => v | none => demoP1.name) ∧
     (applyUpdate demoUpdate demoP1).description =
       (match demoUpdate.description with | some v => v | none => demoP1.description) ∧
     (applyUpdate demoUpdate demoP1).price =
       (match demoUpdate.price with | some v => v | none => demoP1.price) ∧
     (applyUpdate demoUpdate demoP1).in_stock =
       (match demoUpdate.in_stock with | some v => v | none => demoP1.in_stock) ∧
     (applyUpdate demoUpdate demoP1).image_url =
       (match demoUpdate.image_url with | some v => v | none => demoP1.image_url)) ∧
    ∃ l₁ l₂, demoStore.rows = l₁ ++ demoP1 :: l₂ ∧
      update_product demoStore 1 demoUpdate =
        .ok ({ rows := l₁ ++ applyUpdate demoUpdate demoP1 :: l₂
               nextId := demoStore.nextId },
             ProductSchema.fromProduct (applyUpdate demoUpdate demoP1)) :=
  (C1_update_partial_frame demoStore 1 demoUpdate).2 demoP1 rfl

/-- C2: creating a product then fetching it by the returned id yields the
same name, description, price and in_stock values, and the create response
carries the store-assigned integer id. -/
theorem C2_create_then_get (store : ProductStore) (d : ProductCreateSchema)
    (hfresh : store.fresh) :
    (create_product store d).2.2 =
      { id := store.nextId, name := d.name, description := d.description
        price := d.price, in_stock := d.in_stock } ∧
    read_product (create_product store d).1 (create_product store d).2.2.id =
      .ok (create_product store d).2.2 ∧
    (create_product store d).1.fresh := by
  refine ⟨rfl, ?_, ?_⟩
  · show read_product _ store.nextId = _
    have hnone : ∀ q ∈ store.rows, (q.id == store.nextId) = false := by
      intro q hq
      simpa using Nat.ne_of_lt (hfresh q hq)
    simp only [read_product, findProduct, create_product]
    rw [find?_append_left_none _ _ _ hnone]
    simp [List.find?]
  · intro q hq
    simp only [create_product, List.mem_append, List.mem_singleton] at hq
    rcases hq with hq | rfl
    · exact Nat.lt_succ_of_lt (hfresh q hq)
    · exact Nat.lt_succ_self _

/-- C2 witness: the spec's example create request against the demo store. -/
theorem C2_create_then_get_witness :
    (create_product demoStore demoCreate).2.2 =
      { id := demoStore.nextId, name := demoCreate.name
        description := demoCreate.description, price := demoCreate.price
        in_stock := demoCreate.in_stock } ∧
    read_product (create_product demoStore demoCreate).1
        (create_product demoStore demoCreate).2.2.id =
      .ok (create_product demoStore demoCreate).2.2 ∧
    (create_product demoStore demoCreate).1.fresh :=
  C2_create_then_get demoStore demoCreate
    (by intro p hp; fin_cases hp <;> decide)

/-- C3: after a successful delete of an id a get of that id fails with 404
NotFound, and for an absent id both get and delete fail with exactly 404
NotFound (never another error). -/
theorem C3_delete_then_get (store : ProductStore) (product_id : Nat)
    (hnd : (store.rows.map Product.id).Nodup) :
    (∀ store' msg, delete_product store product_id = .ok (store', msg) →
        read_product store' product_id = .error ⟨404, "Product not found"⟩) ∧
    (findProduct store.rows product_id = none →
        read_product store product_id = .error ⟨404, "Product not found"⟩ ∧
        delete_product store product_id = .error ⟨404, "Product not found"⟩) := by
  constructor
  · intro store' msg h
    cases hfind : findProduct store.rows product_id with
    | none => simp [delete_product, hfind] at h
    | some p =>
      have hfind' : List.find? (fun q => q.id == product_id) store.rows = some p := hfind
      obtain ⟨l₁, l₂, hrows, hl₁⟩ :=
        find?_eq_some_split (fun q => q.id == product_id) store.rows p hfind'
      have hpid : p.id = product_id := by
        have h2 := List.find?_some hfind'
        simpa using h2
      have hremove : removeFirst store.rows product_id = l₁ ++ l₂ := by
        rw [hrows]; exact removeFirst_split l₁ p l₂ product_id hl₁ hpid
      have hstore' : store'.rows = l₁ ++ l₂ := by
        simp only [delete_product, hfind] at h
        injection h with h
        rw [Prod.mk.injEq] at h
        rw [← h.1]
        exact hremove
      have hl₂ : ∀ q ∈ l₂, (q.id == product_id) = false := by
        intro q hq
        rw [hrows] at hnd
        simp only [List.map_append, List.map_cons, List.nodup_append,
          List.nodup_cons] at hnd
        have hnotmem : p.id ∉ l₂.map Product.id := hnd.2.1.1
        have hne : q.id ≠ product_id := by
          intro heq
          exact hnotmem (by rw [hpid, ← heq]; exact List.mem_map_of_mem Product.id hq)
        simpa using hne
      have : findProduct store'.rows product_id = none := by
        rw [hstore', findProduct, find?_append_left_none _ _ _ hl₁]
        exact List.find?_eq_none.mpr (by simpa using hl₂)
      simp [read_product, this]
  · intro h
    exact ⟨by simp [read_product, h], by simp [delete_product, h]⟩

/-- C3 witness: deleting product 1 of the demo store then fetching it, and
get/delete on the absent id 99. -/
theorem C3_delete_then_get_witness :
    read_product { rows := removeFirst demoStore.rows 1, nextId := demoStore.nextId } 1 =
      .error ⟨404, "Product not found"⟩ ∧
    read_product demoStore 99 = .error ⟨404, "Product not found"⟩ ∧
    delete_product demoStore 99 = .error ⟨404, "Product not found"⟩ := by
  have h := C3_delete_then_get demoStore 1 (by decide)
  have habsent := (C3_delete_then_get demoStore 99 (by decide)).2 rfl
  exact ⟨h.1 { rows := removeFirst demoStore.rows 1, nextId := demoStore.nextId }
      "Product deleted successfully" rfl, habsent.1, habsent.2⟩

/-- C4: `register(username, password)` fails with 400 AlreadyExists when
the username is taken; otherwise it stores a `User` with `is_admin=false`
whose stored hash is `hashFn password` — never the plaintext, as long as
the hashing function never returns its input (bcrypt's contract) — and the
response schema carries no hash: it is unchanged under any change of the
stored `hashed_password`. -/
theorem C4_register (hashFn : String → String)
    (hOneWay : ∀ pw : String, hashFn pw ≠ pw)
    (store : UserStore) (username password : String) :
    ((∃ u, findUser store.users username = some u) →
       create_user hashFn store username password =
         .error ⟨400, "User already exists"⟩) ∧
    (findUser store.users username = none →
       create_user hashFn store username password =
         .ok ({ users := store.users ++
                  [{ id := store.nextId, username := username
                     hashed_password := hashFn password, is_admin := false }]
                nextId := store.nextId + 1 },
              { id := store.nextId, username := username, is_admin := false }) ∧
       hashFn password ≠ password) ∧
    (∀ (u : User) (hp : String),
       UserSchema.fromUser { u with hashed_password := hp } =
         UserSchema.fromUser u) := by
  refine ⟨?_, ?_, fun u hp => rfl⟩
  · rintro ⟨u, hu⟩
    simp [create_user, hu]
  · intro h
    exact ⟨by simp [create_user, h, UserSchema.fromUser], hOneWay password⟩

/-- C4 witness: registering the taken username `a@b.c` fails with 400;
registering the fresh username `c@d.e` stores the marker-prefixed hash,
which differs from the plaintext. -/
theorem C4_register_witness :
    create_user demoHash demoUserStore "a@b.c" "pw" =
      .error ⟨400, "User already exists"⟩ ∧
    (create_user demoHash demoUserStore "c@d.e" "hunter2" =
      .ok ({ users := demoUserStore.users ++
               [{ id := demoUserStore.nextId, username := "c@d.e"
                  hashed_password := demoHash "hunter2", is_admin := false }]
             nextId := demoUserStore.nextId + 1 },
           { id := demoUserStore.nextId, username := "c@d.e", is_admin := false }) ∧
     demoHash "hunter2" ≠ "hunter2") := by
  have h1 := C4_register demoHash demoHash_one_way demoUserStore "a@b.c" "pw"
  have h2 := C4_register demoHash demoHash_one_way demoUserStore "c@d.e" "hunter2"
  exact ⟨h1.1 ⟨_, rfl⟩, h2.2.1 rfl⟩

/-- C5: username uniqueness is an invariant of the user store — any
sequence of register operations starting from a store with unique
usernames ends in a store with unique usernames, because register checks
for the username before every insert. -/
theorem C5_username_uniqueness_invariant (hashFn : String → String)
    (reqs : List (String × String)) :
    ∀ store : UserStore, uniqueUsernames store →
      uniqueUsernames (registerAll hashFn store reqs) := by
  induction reqs with
  | nil => intro store h; exact h
  | cons r rs ih =>
    intro store h
    exact ih _ (registerStep_unique hashFn store r h)

/-- C5 witness: a request sequence with a duplicate username against the
demo store still ends with unique usernames. -/
theorem C5_username_uniqueness_invariant_witness :
    uniqueUsernames (registerAll demoHash demoUserStore
      [("c@d.e", "pw1"), ("a@b.c", "pw2"), ("c@d.e", "pw3")]) :=
  C5_username_uniqueness_invariant demoHash
    [("c@d.e", "pw1"), ("a@b.c", "pw2"), ("c@d.e", "pw3")]
    demoUserStore (by unfold uniqueUsernames; decide)

/-- C6: for a registered user, login with the correct username and password
returns `{access_token, token_type:"bearer"}` where the token embeds
subject = username and expiry = issuance time + 30 minutes; an unknown
username or a wrong password fails with 401 InvalidCredentials.  The
bcrypt pair `hashFn`/`verifyFn` is assumed to accept exactly the hashed
password (its library contract). -/
theorem C6_login (verifyFn : String → String → Bool) (hashFn : String → String)
    (hVerifyOk : ∀ pw, verifyFn pw (hashFn pw) = true)
    (hVerifySound : ∀ pw pw', verifyFn pw' (hashFn pw) = true → pw' = pw)
    (store : UserStore) (now : Nat) (username password : String) :
    (∀ u, findUser store.users username = some u →
       u.hashed_password = hashFn password →
       login_for_access_token verifyFn now store username password =
         .ok { access_token :=
                 create_access_token now username
                   (some (ACCESS_TOKEN_EXPIRE_MINUTES * 60))
               token_type := "bearer" } ∧
       (create_access_token now username
          (some (ACCESS_TOKEN_EXPIRE_MINUTES * 60))).claims.sub = some username ∧
       (create_access_token now username
          (some (ACCESS_TOKEN_EXPIRE_MINUTES * 60))).claims.exp = now + 30 * 60) ∧
    (findUser store.users username = none →
       login_for_access_token verifyFn now store username password =
         .error ⟨401, "Incorrect username or password"⟩) ∧
    (∀ u wrong, findUser store.users username = some u →
       u.hashed_password = hashFn password → wrong ≠ password →
       login_for_access_token verifyFn now store username wrong =
         .error ⟨401, "Incorrect username or password"⟩) := by
  refine ⟨?_, ?_, ?_⟩
  · intro u hu hhash
    have hu' : List.find? (fun v => v.username == username) store.users = some u := hu
    have hname : u.username = username := by
      have h2 := List.find?_some hu'
      simpa using h2
    have hauth : authenticate_user verifyFn store username password = some u := by
      simp [authenticate_user, findUser, hu', hhash, hVerifyOk password]
    refine ⟨?_, rfl, rfl⟩
    simp [login_for_access_token, hauth, hname]
  · intro h
    simp [login_for_access_token, authenticate_user, h]
  · intro u wrong hu hhash hne
    have hv : verifyFn wrong u.hashed_password = false := by
      cases hw : verifyFn wrong u.hashed_password
      · rfl
      · exact absurd (hVerifySound password wrong (hhash ▸ hw)) hne
    simp [login_for_access_token, authenticate_user, hu, hv]

/-- C6 witness: logging in as the demo user with the right password yields
a bearer token with subject `a@b.c` expiring 30 minutes after issuance;
an unknown username and a wrong password each yield exactly 401. -/
theorem C6_login_witness :
    (login_for_access_token demoVerify 1000 demoUserStore "a@b.c" "hunter2" =
       .ok { access_token :=
               create_access_token 1000 "a@b.c"
                 (some (ACCESS_TOKEN_EXPIRE_MINUTES * 60))
             token_type := "bearer" } ∧
     (create_access_token 1000 "a@b.c"
        (some (ACCESS_TOKEN_EXPIRE_MINUTES * 60))).claims.sub = some "a@b.c" ∧
     (create_access_token 1000 "a@b.c"
        (some (ACCESS_TOKEN_EXPIRE_MINUTES * 60))).claims.exp = 1000 + 30 * 60) ∧
    login_for_access_token demoVerify 1000 demoUserStore "nobody@x.y" "hunter2" =
      .error ⟨401, "Incorrect username or password"⟩ ∧
    login_for_access_token demoVerify 1000 demoUserStore "a@b.c" "wrong" =
      .error ⟨401, "Incorrect username or password"⟩ := by
  have h := C6_login demoVerify demoHash demoVerify_ok demoVerify_sound
    demoUserStore 1000 "a@b.c" "hunter2"
  have h2 := C6_login demoVerify demoHash demoVerify_ok demoVerify_sound
    demoUserStore 1000 "nobody@x.y" "hunter2"
  exact ⟨h.1 _ rfl rfl, h2.2.1 rfl, h.2.2 _ "wrong" rfl rfl (by decide)⟩

/-- C7: `verifyToken` fails with the credentials exception exactly when the
token is unparseable, its signature is invalid, it has no subject claim, or
it is expired at verification time; otherwise it returns the embedded
subject.  Expiry is enforced at verification: a token issued with any
delta is rejected by decode once past its expiry. -/
theorem C7_verify_token (credentials_exception : HTTPException) (now : Nat)
    (token : TokenWire) :
    (verify_token credentials_exception now token = .error credentials_exception ↔
       (∃ s, token = .garbage s) ∨
       (∃ t, token = .jwt t ∧ t.sig ≠ signClaims SECRET_KEY t.claims) ∨
       (∃ t, token = .jwt t ∧ t.claims.exp < now) ∨
       (∃ t, token = .jwt t ∧ t.claims.sub = none)) ∧
    (∀ s, verify_token credentials_exception now token = .ok s →
       ∃ t, token = .jwt t ∧ t.claims.sub = some s ∧
         t.sig = signClaims SECRET_KEY t.claims ∧ now ≤ t.claims.exp) ∧
    (∀ (issued : Nat) (sub : String) (delta : Nat),
       issued + delta < now →
       jwt_decode SECRET_KEY now
         (.jwt (create_access_token issued sub (some delta))) = none) := by
  refine ⟨?_, ?_, ?_⟩
  · cases token with
    | garbage s =>
      constructor
      · intro _
        exact Or.inl ⟨s, rfl⟩
      · intro _
        simp [verify_token, jwt_decode]
    | jwt t =>
      by_cases hsig : t.sig = signClaims SECRET_KEY t.claims
      · by_cases hexp : t.claims.exp < now
        · constructor
          · intro _
            exact Or.inr (Or.inr (Or.inl ⟨t, rfl, hexp⟩))
          · intro _
            simp [verify_token, jwt_decode, hsig, hexp]
        · cases hsub : t.claims.sub with
          | none =>
            constructor
            · intro _
              exact Or.inr (Or.inr (Or.inr ⟨t, rfl, hsub⟩))
            · intro _
              simp [verify_token, jwt_decode, hsig, hexp, hsub]
          | some u =>
            constructor
            · intro h
              simp [verify_token, jwt_decode, hsig, hexp, hsub] at h
            · rintro (⟨s, hs⟩ | ⟨t', ht', hsig'⟩ | ⟨t', ht', hexp'⟩ | ⟨t', ht', hsub'⟩)
              · simp at hs
              · injection ht' with he
                subst he
                exact absurd hsig hsig'
              · injection ht' with he
                subst he
                exact absurd hexp' hexp
              · injection ht' with he
                subst he
                rw [hsub] at hsub'
                simp at hsub'
      · constructor
        · intro _
          exact Or.inr (Or.inl ⟨t, rfl, hsig⟩)
        · intro _
          simp [verify_token, jwt_decode, hsig]
  · intro s h
    cases token with
    | garbage g => simp [verify_token, jwt_decode] at h
    | jwt t =>
      by_cases hsig : t.sig = signClaims SECRET_KEY t.claims
      · by_cases hexp : t.claims.exp < now
        · simp [verify_token, jwt_decode, hsig, hexp] at h
        · cases hsub : t.claims.sub with
          | none => simp [verify_token, jwt_decode, hsig, hexp, hsub] at h
          | some u =>
            have hus : u = s := by
              simpa [verify_token, jwt_decode, hsig, hexp, hsub] using h
            exact ⟨t, rfl, by rw [hsub, hus], hsig, Nat.le_of_not_lt hexp⟩
      · simp [verify_token, jwt_decode, hsig] at h
  · intro issued sub delta hlt
    simp [jwt_decode, create_access_token, hlt]

/-- C7 witness: a token issued at time 1000 with the default 30-minute
window is rejected at verification time 5000 — expiry enforced at
verification — and decode returns nothing for it. -/
theorem C7_verify_token_witness :
    verify_token ⟨401, "Could not validate credentials"⟩ 5000
        (.jwt (create_access_token 1000 "a@b.c" (some 1800))) =
      .error ⟨401, "Could not validate credentials"⟩ ∧
    jwt_decode SECRET_KEY 5000
        (.jwt (create_access_token 1000 "a@b.c" (some 1800))) = none := by
  have h := C7_verify_token ⟨401, "Could not validate credentials"⟩ 5000
    (.jwt (create_access_token 1000 "a@b.c" (some 1800)))
  refine ⟨?_, h.2.2 1000 "a@b.c" 1800 (by decide)⟩
  exact h.1.mpr (Or.inr (Or.inr (Or.inl ⟨_, rfl, by decide⟩)))

/-- C8: a store failure or any unclassified failure maps to a generic 500
whose message is a constant — independent of the internal exception, so
nothing leaks — while NotFound, AlreadyExists and InvalidCredentials map
to their specific 4xx codes with a detail message.  `read_products`
implements the 500 mapping itself; for the remaining handlers the
framework's translation (modelled from the spec) does. -/
theorem C8_error_propagation :
    (∀ (store : ProductStore) (msg : String),
       read_products store (some (.sqlAlchemyError msg)) =
         .error ⟨500, "Internal Server Error: Database operation failed."⟩) ∧
    (∀ (store : ProductStore) (msg : String),
       read_products store (some (.otherError msg)) =
         .error ⟨500, "Internal Server Error: Unable to process request."⟩) ∧
    (∀ (α : Type) (render : α → String) (msg : String),
       frameworkRespond render (.raised msg) = (500, "Internal Server Error")) ∧
    (∀ (store : ProductStore) (product_id : Nat),
       findProduct store.rows product_id = none →
         read_product store product_id = .error ⟨404, "Product not found"⟩ ∧
         (∀ u, update_product store product_id u =
            .error ⟨404, "Product not found"⟩) ∧
         delete_product store product_id = .error ⟨404, "Product not found"⟩) ∧
    (∀ (hashFn : String → String) (store : UserStore) (username password : String),
       (∃ u, findUser store.users username = some u) →
         create_user hashFn store username password =
           .error ⟨400, "User already exists"⟩) ∧
    (∀ (verifyFn : String → String → Bool) (now : Nat) (store : UserStore)
       (username password : String),
       authenticate_user verifyFn store username password = none →
         login_for_access_token verifyFn now store username password =
           .error ⟨401, "Incorrect username or password"⟩) := by
  refine ⟨fun store msg => rfl, fun store msg => rfl, fun α render msg => rfl,
    ?_, ?_, ?_⟩
  · intro store product_id h
    exact ⟨by simp [read_product, h], fun u => by simp [update_product, h],
      by simp [delete_product, h]⟩
  · rintro hashFn store username password ⟨u, hu⟩
    simp [create_user, hu]
  · intro verifyFn now store username password h
    simp [login_for_access_token, h]

/-- C8 witness: a concrete store failure and a concrete uncaught exception
each produce the fixed 500 body, and a missing product id produces the
specific 404 detail. -/
theorem C8_error_propagation_witness :
    read_products demoStore (some (.sqlAlchemyError "disk I/O error")) =
      .error ⟨500, "Internal Server Error: Database operation failed."⟩ ∧
    frameworkRespond (fun _ : Unit => "{}") (.raised "IntegrityError") =
      (500, "Internal Server Error") ∧
    read_product demoStore 99 = .error ⟨404, "Product not found"⟩ := by
  have h := C8_error_propagation
  exact ⟨h.1 demoStore "disk I/O error",
    h.2.2.1 Unit (fun _ => "{}") "IntegrityError",
    (h.2.2.2.1 demoStore 99 rfl).1⟩

/-- C9: the session acquired at the start of a request is released on
every exit path — the request's trace always ends with the release event,
whether the body returns or raises, the body's outcome is passed through
unchanged, and a body that is balanced in session events leaves the whole
request balanced (no session left open). -/
theorem C9_session_released (α : Type) (body : Nat → PyResult α × List Event) :
    (get_db body).1 = (body 0).1 ∧
    Event.release ∈ (get_db body).2 ∧
    (get_db body).2.getLast? = some Event.release ∧
    ((body 0).2.count Event.acquire = (body 0).2.count Event.release →
       (get_db body).2.count Event.acquire = (get_db body).2.count Event.release) := by
  have h1 : (Event.acquire == Event.release) = false := rfl
  have h2 : (Event.release == Event.acquire) = false := rfl
  have h3 : (Event.release == Event.release) = true := rfl
  have h4 : (Event.acquire == Event.acquire) = true := rfl
  rcases hbody : body 0 with ⟨r, evs⟩
  cases r with
  | ret a =>
    refine ⟨?_, ?_, ?_, ?_⟩
    · simp [get_db, asyncWith, sessionEnter, sessionExit, hbody]
    · simp [get_db, asyncWith, sessionEnter, sessionExit, hbody]
    · simp only [get_db, asyncWith, sessionEnter, sessionExit, hbody]
      rw [List.getLast?_concat]
    · intro h
      simp only [hbody] at h
      simp [get_db, asyncWith, sessionEnter, sessionExit, hbody,
        List.count_append, List.count_cons, h1, h2, h3, h4]
      omega
  | raised e =>
    refine ⟨?_, ?_, ?_, ?_⟩
    · simp [get_db, asyncWith, sessionEnter, sessionExit, hbody]
    · simp [get_db, asyncWith, sessionEnter, sessionExit, hbody]
    · simp only [get_db, asyncWith, sessionEnter, sessionExit, hbody]
      rw [List.getLast?_concat]
    · intro h
      simp only [hbody] at h
      simp [get_db, asyncWith, sessionEnter, sessionExit, hbody,
        List.count_append, List.count_cons, h1, h2, h3, h4]
      omega

/-- C9 witness: a request body that raises mid-request still ends with the
session released and the trace balanced. -/
theorem C9_session_released_witness :
    (get_db (fun _ => (PyResult.raised (α := Nat) "DB down", []))).1 =
      PyResult.raised "DB down" ∧
    Event.release ∈ (get_db (fun _ => (PyResult.raised (α := Nat) "DB down", []))).2 ∧
    (get_db (fun _ => (PyResult.raised (α := Nat) "DB down", []))).2.getLast? =
      some Event.release ∧
    (get_db (fun _ => (PyResult.raised (α := Nat) "DB down", []))).2.count
        Event.acquire =
      (get_db (fun _ => (PyResult.raised (α := Nat) "DB down", []))).2.count
        Event.release := by
  have h := C9_session_released Nat (fun _ => (PyResult.raised "DB down", []))
  exact ⟨h.1, h.2.1, h.2.2.1, h.2.2.2 rfl⟩

/-- C10: a create request cannot set the image reference — the stored row
always has a NULL `image_url`, the response schema is insensitive to
`image_url` (it has no such field), and `image_url` becomes settable only
through a partial update, which then touches no other field. -/
theorem C10_create_cannot_set_image (store : ProductStore)
    (d : ProductCreateSchema) :
    (create_product store d).2.1.image_url = none ∧
    (∀ (p : Product) (url : Option String),
       ProductSchema.fromProduct { p with image_url := url } =
         ProductSchema.fromProduct p) ∧
    (∀ (p : Product) (url : String),
       (applyUpdate { image_url := some url } p).image_url = some url ∧
       (applyUpdate { image_url := some url } p).name = p.name ∧
       (applyUpdate { image_url := some url } p).description = p.description ∧
       (applyUpdate { image_url := some url } p).price = p.price ∧
       (applyUpdate { image_url := some url } p).in_stock = p.in_stock) :=
  ⟨rfl, fun _ _ => rfl, fun _ _ => ⟨rfl, rfl, rfl, rfl, rfl⟩⟩

end NectarNook
